import Mathlib

/-!
# Verification of `gpt/utils.py` (ml-theory-code)

A shallow embedding of the training utilities in `src/gpt/utils.py`:
the Noam learning-rate schedule (`NoamOpt`), the `Trainer` checkpointing
methods, device selection (`setup_device`), the byte-pair-encoding tokenizer
builder (`create_train_tokenizer`) and the windowed next-token dataset
(`SimpleTextDataset`).

Conventions of the embedding:

* Python floats are modelled as real numbers (`ℝ`); the learning-rate formula
  is stated exactly as written in the source.
* The external Adam optimizer is summarized by its parameter groups (each
  carrying its `lr` entry) plus a ghost `update_trace` recording, for each
  underlying `opt.step()` call, the `lr` values of the parameter groups at the
  moment the update ran.  The trace only observes ordering; it does not alter
  any behaviour.
* `NoamOpt` carries a ghost list `lr_args` of the step-counter values at which
  the rate formula `_lr` was evaluated, to state reachability claims about the
  `t = 0` singularity.
* File systems are association lists from paths to file contents; Python
  exceptions are an explicit `Except` error channel.
-/

namespace GPTUtils

/-! ## The Noam learning-rate formula (`NoamOpt._lr`) -/

/-- The learning rate computed by `NoamOpt._lr` at step counter `step`:
`embed_dim**-0.5 * min(step**-0.5, step * warmup_steps**-1.5)`. -/
noncomputable def noam_lr (embed_dim warmup_steps step : ℕ) : ℝ :=
  (embed_dim : ℝ) ^ (-0.5 : ℝ) *
    min ((step : ℝ) ^ (-0.5 : ℝ)) ((step : ℝ) * (warmup_steps : ℝ) ^ (-1.5 : ℝ))

/-! ## The `NoamOpt` wrapper -/

/-- One entry of `torch.optim.Adam.param_groups`; only the `"lr"` key is
relevant to this code. -/
structure ParamGroup where
  lr : ℝ

/-- Summary of the wrapped `torch.optim.Adam`: its parameter groups and the
hyperparameters the constructor received.  `update_trace` is ghost
instrumentation: each `opt.step()` call prepends the list of `lr` values the
parameter groups held when that underlying update ran. -/
structure AdamState where
  param_groups : List ParamGroup
  betas : ℝ × ℝ
  eps : ℝ
  update_trace : List (List ℝ)

/-- `torch.optim.Adam(parameters, lr=lr, betas=betas, eps=eps)`: all parameters
are placed in a single parameter group carrying the given `lr`. -/
def Adam (lr : ℝ) (betas : ℝ × ℝ) (eps : ℝ) : AdamState :=
  { param_groups := [⟨lr⟩], betas := betas, eps := eps, update_trace := [] }

/-- `Adam.step()`: performs one underlying parameter update, using the current
`lr` of each parameter group (recorded in the ghost trace). -/
def AdamState.step (a : AdamState) : AdamState :=
  { a with update_trace := a.param_groups.map ParamGroup.lr :: a.update_trace }

/-- `Adam.zero_grad()`: clears gradients; no effect on the modelled state. -/
def AdamState.zero_grad (a : AdamState) : AdamState := a

/-- The `NoamOpt` wrapper from `gpt/utils.py`.  `lr_args` is ghost: it records
every step-counter value at which `_lr` was evaluated. -/
structure NoamOpt where
  opt : AdamState
  embed_dim : ℕ
  warmup_steps : ℕ
  _step : ℕ
  lr_args : List ℕ

/-- `NoamOpt.__init__`: builds the Adam optimizer and sets `self._step = 0`. -/
def NoamOpt.init (lr : ℝ := 0) (betas : ℝ × ℝ := (0.9, 0.98)) (eps : ℝ := 1e-9)
    (embed_dim : ℕ := 512) (warmup_steps : ℕ := 4000) : NoamOpt :=
  { opt := Adam lr betas eps
    embed_dim := embed_dim
    warmup_steps := warmup_steps
    _step := 0
    lr_args := [] }

/-- `NoamOpt._lr(self)`: the rate formula evaluated at the current counter. -/
noncomputable def NoamOpt._lr (o : NoamOpt) : ℝ :=
  noam_lr o.embed_dim o.warmup_steps o._step

/-- `NoamOpt._update_lr(self)`: writes `self._lr()` into every parameter group
of the wrapped optimizer (the ghost `lr_args` records the counter value at
which the formula was evaluated). -/
noncomputable def NoamOpt._update_lr (o : NoamOpt) : NoamOpt :=
  { o with
    opt := { o.opt with
              param_groups := o.opt.param_groups.map fun g => { g with lr := o._lr } }
    lr_args := o._step :: o.lr_args }

/-- `NoamOpt.step(self)`: `self._step += 1; self._update_lr(); self.opt.step()`. -/
noncomputable def NoamOpt.step (o : NoamOpt) : NoamOpt :=
  let o₁ : NoamOpt := { o with _step := o._step + 1 }
  let o₂ : NoamOpt := o₁._update_lr
  { o₂ with opt := o₂.opt.step }

/-- `NoamOpt.zero_grad(self)`: delegates to the wrapped optimizer. -/
noncomputable def NoamOpt.zero_grad (o : NoamOpt) : NoamOpt :=
  { o with opt := o.opt.zero_grad }

/-- The operations a caller can perform on a `NoamOpt` instance.
`set_step k` models the direct field assignment `opt._step = k` performed by
`Trainer.load_checkpoint`. -/
inductive NoamOp where
  | step
  | zero_grad
  | set_step (k : ℕ)

/-- Run a sequence of caller operations against a `NoamOpt` instance. -/
noncomputable def NoamOpt.run (o : NoamOpt) : List NoamOp → NoamOpt
  | [] => o
  | NoamOp.step :: ops => o.step.run ops
  | NoamOp.zero_grad :: ops => o.zero_grad.run ops
  | NoamOp.set_step k :: ops => (NoamOpt.mk o.opt o.embed_dim o.warmup_steps k o.lr_args).run ops

/-! ## The windowed dataset (`SimpleTextDataset`) -/

/-- Python slice `xs[a : b]` of a 1-D tensor for `0 ≤ a ≤ b`: the elements at
indices `a, …, b-1`, silently truncated at the end of the tensor. -/
def pySlice (xs : List ℤ) (a b : ℕ) : List ℤ :=
  (xs.take b).drop a

/-- The state of a constructed `SimpleTextDataset` relevant to indexing:
the flat token stream `self.data` and `self.block_size`. -/
structure SimpleTextDataset where
  data : List ℤ
  block_size : ℕ
deriving DecidableEq

/-- `SimpleTextDataset.__len__`: `len(self.data) - self.block_size`, a Python
`int`, hence possibly negative. -/
def SimpleTextDataset.len (ds : SimpleTextDataset) : ℤ :=
  (ds.data.length : ℤ) - (ds.block_size : ℤ)

/-- The `{"input": …, "target": …}` dictionary returned by `__getitem__`. -/
structure Sample where
  input : List ℤ
  target : List ℤ
deriving DecidableEq

/-- `SimpleTextDataset.__getitem__(self, index)`:
`input = self.data[index : index + block_size]`,
`target = self.data[index + 1 : index + block_size + 1]`. -/
def SimpleTextDataset.getitem (ds : SimpleTextDataset) (index : ℕ) : Sample :=
  { input := pySlice ds.data index (index + ds.block_size)
    target := pySlice ds.data (index + 1) (index + ds.block_size + 1) }

/-- One record of the raw dataset; only its `"text"` field is used. -/
structure Row where
  text : String
deriving DecidableEq

/-- `raw_dataset.filter(lambda x: len(x["text"]) > 0)`. -/
def filter_empty (rows : List Row) : List Row :=
  rows.filter fun x => 0 < x.text.length

/-- The token-stream construction inside `SimpleTextDataset.__init__`.
`cached` is the content of the `{path}-{split}-tokenized.pt` file when that
file exists (`none` when it does not); `encode` is the tokenizer's
text-to-token-ids map.  When no cache file exists, the non-empty rows are
tokenized and the per-row id sequences concatenated in record order
(`torch.cat`); otherwise the cached tensor is loaded verbatim. -/
def SimpleTextDataset.build_data (cached : Option (List ℤ)) (encode : String → List ℤ)
    (raw_dataset : List Row) : List ℤ :=
  match cached with
  | some data => data
  | none => ((filter_empty raw_dataset).map fun x => encode x.text).flatten

/-! ## Device selection (`setup_device`) -/

/-- A `torch.device` handle. -/
inductive device where
  | cuda (index : ℕ)
  | mps
  | cpu
deriving DecidableEq

/-- The environment `setup_device` probes: backend availability flags and the
values returned by the memory/name queries it logs. -/
structure DeviceEnv where
  cuda_is_available : Bool
  cuda_device_name : String
  cuda_device_count : ℕ
  cuda_free_mem : ℕ
  mps_is_available : Bool
  virtual_memory_available : ℕ

/-- `setup_device()`: probes CUDA first, then MPS, and falls back to CPU;
returns the chosen device together with the emitted log lines. -/
def setup_device (env : DeviceEnv) : device × List String :=
  if env.cuda_is_available then
    (device.cuda 0,
      ["Using CUDA device: " ++ env.cuda_device_name ++ " (" ++
         toString env.cuda_device_count ++ "x)",
       "Memory available: " ++ toString env.cuda_free_mem])
  else if env.mps_is_available then
    (device.mps, ["Using MPS device"])
  else
    (device.cpu, ["available memory: " ++ toString env.virtual_memory_available])

/-! ## The tokenizer builder (`create_train_tokenizer`) -/

/-- The configuration object's field used by the builder. -/
structure TokenizersConfig where
  special_tokens : List String
deriving DecidableEq

/-- A `tokenizers.Tokenizer` object, summarized by its construction inputs:
the BPE model's unknown token, the attached pre-tokenizer and normalizer, the
trainer's special tokens, and the batches of text the tokenizer was trained
on.  BPE training itself belongs to the external `tokenizers` library and is
treated abstractly. -/
structure Tokenizer where
  unk_token : String
  pre_tok : Option String
  normalizer : Option String
  special_tokens : List String
  trained_batches : List (List String)
deriving DecidableEq

/-- `transformers.PreTrainedTokenizerFast(tokenizer_object=…)`. -/
structure PreTrainedTokenizerFast where
  tokenizer_object : Tokenizer
deriving DecidableEq

/-- The tokenizer-file portion of the file system: an association list from
paths to saved tokenizers (`Tokenizer.save` / `Tokenizer.from_file` are
inverse serializations, modelled as the identity on the stored object). -/
abbrev TokFS := List (String × Tokenizer)

/-- `batch_iterator()` inside `create_train_tokenizer`: the texts of
`raw_dataset` in consecutive slices `raw_dataset[i : i + batch_size]` for
`i = 0, batch_size, 2*batch_size, …`.  (Python's `range` rejects a zero step;
`batch_size = 0` is mapped to the empty iterator here and never used.) -/
def batch_iterator (xs : List String) (batch_size : ℕ) : List (List String) :=
  if _h : xs = [] ∨ batch_size = 0 then []
  else xs.take batch_size :: batch_iterator (xs.drop batch_size) batch_size
termination_by xs.length
decreasing_by
  simp only [not_or] at _h
  have h1 : 0 < xs.length := List.length_pos.mpr _h.1
  have h2 : batch_size ≠ 0 := _h.2
  simp only [List.length_drop]
  omega

/-- The tokenizer built and trained in the cache-miss branch of
`create_train_tokenizer`: `Tokenizer(BPE(unk_token="[UNK]"))` with a
`Whitespace` pre-tokenizer and a `BertNormalizer`, trained by a `BpeTrainer`
carrying `config.special_tokens` on the corpus fed in batches of
`batch_size`. -/
def bpe_trained_tokenizer (raw_dataset : List String) (batch_size : ℕ)
    (config : TokenizersConfig) : Tokenizer :=
  { unk_token := "[UNK]"
    pre_tok := some "Whitespace"
    normalizer := some "BertNormalizer"
    special_tokens := config.special_tokens
    trained_batches := batch_iterator raw_dataset batch_size }

/-- The observable result of `create_train_tokenizer`: the returned wrapped
tokenizer and vocabulary size, the file system after the call, and a ghost
flag recording whether BPE training ran during the call. -/
structure CreateTrainResult where
  wrapped : PreTrainedTokenizerFast
  vocab_size : ℕ
  fs : TokFS
  trained : Bool
deriving DecidableEq

/-- `create_train_tokenizer(raw_dataset, tokenizer_file_path, batch_size,
config)`.  `get_vocab_size` abstracts the external library's
`Tokenizer.get_vocab_size()`.  If no file exists at `tokenizer_file_path`, a
BPE tokenizer is trained in batches and saved there; otherwise the tokenizer
is loaded from the file.  Either way the tokenizer in hand is wrapped in a
`PreTrainedTokenizerFast` and returned with its vocabulary size. -/
def create_train_tokenizer (get_vocab_size : Tokenizer → ℕ) (fs : TokFS)
    (raw_dataset : List String) (tokenizer_file_path : String)
    (batch_size : ℕ) (config : TokenizersConfig) : CreateTrainResult :=
  match fs.lookup tokenizer_file_path with
  | none =>
      let tokenizer := bpe_trained_tokenizer raw_dataset batch_size config
      { wrapped := ⟨tokenizer⟩
        vocab_size := get_vocab_size tokenizer
        fs := (tokenizer_file_path, tokenizer) :: fs
        trained := true }
  | some tokenizer =>
      { wrapped := ⟨tokenizer⟩
        vocab_size := get_vocab_size tokenizer
        fs := fs
        trained := false }

/-! ## `Trainer` checkpointing -/

/-- A Python exception surfaced by the embedded code. -/
inductive PyError where
  | attributeError (type_name attr : String)
  | fileNotFoundError (path : String)
deriving DecidableEq

/-- The external model: its `embed_dim` attribute and a parameter snapshot
(`state_dict`). -/
structure Model where
  embed_dim : ℕ
  params : List ℝ

/-- `model.state_dict()`. -/
def Model.state_dict (m : Model) : List ℝ := m.params

/-- `model.load_state_dict(sd)`; shape compatibility is assumed (checkpoint
shape mismatch is outside the claims considered here). -/
def Model.load_state_dict (m : Model) (sd : List ℝ) : Model :=
  { m with params := sd }

/-- `model.to(device)`: device placement does not change the modelled state. -/
def Model.to (m : Model) (_d : device) : Model := m

/-- The dictionary `torch.save`d by `Trainer.save_checkpoint`:
`{"model": …, "opt": …, "step": …}`. -/
structure Checkpoint where
  model : List ℝ
  opt : AdamState
  step : ℕ

/-- The checkpoint-file portion of the file system. -/
abbrev CkptFS := List (String × Checkpoint)

/-- `torch.save(obj, path)`. -/
def torch_save (fs : CkptFS) (path : String) (c : Checkpoint) : CkptFS :=
  (path, c) :: fs

/-- `torch.load(path)`: the stored object, or an error when no file exists. -/
def torch_load (fs : CkptFS) (path : String) : Except PyError Checkpoint :=
  match fs.lookup path with
  | some c => Except.ok c
  | none => Except.error (PyError.fileNotFoundError path)

/-- The class `NoamOpt` defines no `state_dict` method and inherits none from
`object`, so the call `self.opt.state_dict()` in `Trainer.save_checkpoint`
raises `AttributeError` under Python attribute lookup. -/
def NoamOpt.state_dict (_o : NoamOpt) : Except PyError AdamState :=
  Except.error (PyError.attributeError "NoamOpt" "state_dict")

/-- Likewise `NoamOpt` defines no `load_state_dict` method, so the call
`self.opt.load_state_dict(state["opt"])` in `Trainer.load_checkpoint` raises
`AttributeError`. -/
def NoamOpt.load_state_dict (_o : NoamOpt) (_sd : AdamState) : Except PyError NoamOpt :=
  Except.error (PyError.attributeError "NoamOpt" "load_state_dict")

/-- The `Trainer` state: the owned model, the `NoamOpt`-wrapped optimizer and
the execution device. -/
structure Trainer where
  model : Model
  opt : NoamOpt
  device : GPTUtils.device

/-- `Trainer.__init__(model, device)`. -/
noncomputable def Trainer.init (model : Model) (dev : GPTUtils.device) : Trainer :=
  { model := model.to dev
    opt := NoamOpt.init 0 (0.9, 0.98) 1e-9 model.embed_dim 4000
    device := dev }

/-- `Trainer.save_checkpoint(path)`: `torch.save({"model": …, "opt":
self.opt.state_dict(), "step": self.opt._step}, path)`.  Evaluation order
follows Python: the dictionary's values are evaluated before `torch.save`
runs, so a failing `self.opt.state_dict()` aborts before any write. -/
def Trainer.save_checkpoint (t : Trainer) (path : String) (fs : CkptFS) :
    Except PyError CkptFS := do
  let opt_sd ← t.opt.state_dict
  Except.ok (torch_save fs path
    { model := t.model.state_dict, opt := opt_sd, step := t.opt._step })

/-- `Trainer.load_checkpoint(path)`: `state = torch.load(path);
self.model.load_state_dict(state["model"]);
self.opt.load_state_dict(state["opt"]); self.opt._step = state["step"]`. -/
def Trainer.load_checkpoint (t : Trainer) (path : String) (fs : CkptFS) :
    Except PyError Trainer := do
  let state ← torch_load fs path
  let model := t.model.load_state_dict state.model
  let opt ← t.opt.load_state_dict state.opt
  Except.ok { t with
                model := model
                opt := NoamOpt.mk opt.opt opt.embed_dim opt.warmup_steps state.step opt.lr_args }

/-! ## Theorems -/

/-- **C1** (code evaluated at the failing input): `Trainer.save_checkpoint`
always raises `AttributeError` because `NoamOpt` defines no `state_dict`
method, and on any file system holding a checkpoint at `path`,
`Trainer.load_checkpoint` raises `AttributeError` because `NoamOpt` defines no
`load_state_dict` method.  The claimed save/load round trip therefore never
completes. -/
theorem claim_C1_checkpoint_attribute_error (t : Trainer) (path : String) (fs : CkptFS) :
    t.save_checkpoint path fs =
      Except.error (PyError.attributeError "NoamOpt" "state_dict") ∧
    ∀ c : Checkpoint, fs.lookup path = some c →
      t.load_checkpoint path fs =
        Except.error (PyError.attributeError "NoamOpt" "load_state_dict") := by
  constructor
  · rfl
  · intro c hc
    simp only [Trainer.load_checkpoint, torch_load, hc, NoamOpt.load_state_dict]
    rfl

/-- Witness for **C1** at a concrete trainer, path and file system. -/
theorem claim_C1_checkpoint_attribute_error_witness :
    (Trainer.mk ⟨512, []⟩ (NoamOpt.init 0 (0.9, 0.98) 1e-9 512 4000)
        device.cpu).save_checkpoint "ckpt.pt"
        [("ckpt.pt", ⟨[], Adam 0 (0.9, 0.98) 1e-9, 3⟩)] =
      Except.error (PyError.attributeError "NoamOpt" "state_dict") ∧
    (Trainer.mk ⟨512, []⟩ (NoamOpt.init 0 (0.9, 0.98) 1e-9 512 4000)
        device.cpu).load_checkpoint "ckpt.pt"
        [("ckpt.pt", ⟨[], Adam 0 (0.9, 0.98) 1e-9, 3⟩)] =
      Except.error (PyError.attributeError "NoamOpt" "load_state_dict") :=
  ⟨(claim_C1_checkpoint_attribute_error _ "ckpt.pt" _).1,
   (claim_C1_checkpoint_attribute_error _ "ckpt.pt" _).2 _ rfl⟩

/-- **C3**: `NoamOpt.step()` first increments the step counter, then writes
the rate `d^-0.5 * min(t^-0.5, t * w^-1.5)` evaluated at the new counter into
every parameter group, and only then performs exactly one underlying optimizer
update — the update recorded in the trace runs with the freshly written
rate. -/
theorem claim_C3_step_order (o : NoamOpt) :
    o.step._step = o._step + 1 ∧
    o.step.opt.param_groups =
      o.opt.param_groups.map
        (fun g => { g with lr := noam_lr o.embed_dim o.warmup_steps (o._step + 1) }) ∧
    o.step.opt.update_trace =
      (o.opt.param_groups.map fun _ => noam_lr o.embed_dim o.warmup_steps (o._step + 1)) ::
        o.opt.update_trace := by
  refine ⟨rfl, rfl, ?_⟩
  show (o.opt.param_groups.map fun _ =>
          { lr := noam_lr o.embed_dim o.warmup_steps (o._step + 1) : ParamGroup }).map
            ParamGroup.lr :: o.opt.update_trace = _
  rw [List.map_map]
  rfl

/-- **C4** fails as stated: with a one-token stream and block size 2,
`__len__` returns the negative Python int `-1`, not `max(L - b, 0) = 0`. -/
theorem claim_C4_counterexample :
    SimpleTextDataset.len ⟨[5], 2⟩ = -1 ∧
    SimpleTextDataset.len ⟨[5], 2⟩ ≠ max ((([(5 : ℤ)] : List ℤ).length : ℤ) - 2) 0 := by
  constructor
  · rfl
  · decide

/-- **C4** (amended): `__len__` returns the untruncated integer `L - b`; this
equals `max(L - b, 0)` exactly when `b ≤ L`, while for `L < b` the reported
length is negative (not clamped to zero, though no error is raised). -/
theorem claim_C4_len_unclamped (ds : SimpleTextDataset) :
    ds.len = (ds.data.length : ℤ) - (ds.block_size : ℤ) ∧
    (ds.block_size ≤ ds.data.length →
      ds.len = max ((ds.data.length : ℤ) - (ds.block_size : ℤ)) 0) ∧
    (ds.data.length < ds.block_size → ds.len < 0) := by
  refine ⟨rfl, ?_, ?_⟩ <;>
    · intro h
      simp only [SimpleTextDataset.len]
      omega

/-- Witness for **C4** (amended) on a three-token stream with block size 2. -/
theorem claim_C4_len_unclamped_witness :
    (2 ≤ ([1, 2, 3] : List ℤ).length) ∧
    SimpleTextDataset.len ⟨[1, 2, 3], 2⟩ =
      max ((([1, 2, 3] : List ℤ).length : ℤ) - (2 : ℕ)) 0 :=
  ⟨by decide, (claim_C4_len_unclamped ⟨[1, 2, 3], 2⟩).2.1 (by decide)⟩

/-- **C6**: the step counter starts at 0 at construction, and since `step()`
increments the counter before `_update_lr()` evaluates the rate formula, every
evaluation of `_lr` along any sequence of operations happens at a counter
value `t ≥ 1`; the `t = 0` division by zero is unreachable. -/
theorem claim_C6_no_rate_eval_at_zero (lr : ℝ) (betas : ℝ × ℝ) (eps : ℝ)
    (d w : ℕ) (ops : List NoamOp) :
    (NoamOpt.init lr betas eps d w)._step = 0 ∧
    ∀ t ∈ ((NoamOpt.init lr betas eps d w).run ops).lr_args, 1 ≤ t := by
  refine ⟨rfl, ?_⟩
  have key : ∀ (ops : List NoamOp) (o : NoamOpt),
      (∀ t ∈ o.lr_args, 1 ≤ t) → ∀ t ∈ (o.run ops).lr_args, 1 ≤ t := by
    intro ops
    induction ops with
    | nil => intro o h; exact h
    | cons op ops ih =>
        intro o h
        cases op with
        | step =>
            refine ih o.step ?_
            intro t ht
            have hstep : o.step.lr_args = (o._step + 1) :: o.lr_args := rfl
            rw [hstep] at ht
            rcases List.mem_cons.mp ht with h1 | h1
            · omega
            · exact h t h1
        | zero_grad => exact ih o.zero_grad h
        | set_step k => exact ih _ h
  refine key ops _ ?_
  intro t ht
  exact absurd ht (List.not_mem_nil t)

/-- Witness for **C6**: one `step()` call from a fresh instance evaluates the
rate exactly at `t = 1`. -/
theorem claim_C6_no_rate_eval_at_zero_witness :
    (NoamOpt.init 0 (0.9, 0.98) 1e-9 512 4000)._step = 0 ∧ 1 ≤ 1 :=
  ⟨(claim_C6_no_rate_eval_at_zero 0 (0.9, 0.98) 1e-9 512 4000 [NoamOp.step]).1,
   (claim_C6_no_rate_eval_at_zero 0 (0.9, 0.98) 1e-9 512 4000 [NoamOp.step]).2 1 (by decide)⟩

/-- **C9**: `setup_device` probes CUDA first, then MPS, and when neither
accelerator is available it returns the CPU device handle; the function is
total (no error path). -/
theorem claim_C9_device_priority_and_fallback (env : DeviceEnv) :
    (env.cuda_is_available = true → (setup_device env).1 = device.cuda 0) ∧
    (env.cuda_is_available = false → env.mps_is_available = true →
      (setup_device env).1 = device.mps) ∧
    (env.cuda_is_available = false → env.mps_is_available = false →
      (setup_device env).1 = device.cpu) := by
  refine ⟨?_, ?_, ?_⟩
  · intro h1
    simp [setup_device, h1]
  · intro h1 h2
    simp [setup_device, h1, h2]
  · intro h1 h2
    simp [setup_device, h1, h2]

/-- Witness for **C9** in an environment with no accelerator. -/
theorem claim_C9_device_priority_and_fallback_witness :
    (DeviceEnv.mk false "" 0 0 false 8).cuda_is_available = false ∧
    (DeviceEnv.mk false "" 0 0 false 8).mps_is_available = false ∧
    (setup_device (DeviceEnv.mk false "" 0 0 false 8)).1 = device.cpu :=
  ⟨rfl, rfl, (claim_C9_device_priority_and_fallback _).2.2 rfl rfl⟩

/-- Length of a Python slice: `len(xs[a:b]) = min(b, len(xs)) - a` (truncated
at zero). -/
theorem pySlice_length (xs : List ℤ) (a b : ℕ) :
    (pySlice xs a b).length = min b xs.length - a := by
  simp [pySlice]

/-- Elementwise view of a Python slice: inside the requested bounds the slice
reads the underlying list at the shifted index. -/
theorem pySlice_getElem? (xs : List ℤ) (a b k : ℕ) (h : a + k < b) :
    (pySlice xs a b)[k]? = xs[a + k]? := by
  simp [pySlice, List.getElem?_drop, List.getElem?_take, h]

/-- **C2**: for every valid window start `i` (with `i + b < len(stream)`, and
block size `b ≥ 1`), `__getitem__` returns `input = stream[i : i+b]` and
`target = stream[i+1 : i+b+1]`, both of length `b`, with
`target[k] = input[k+1]` for `k ≤ b-2` and `target[b-1] = stream[i+b]`. -/
theorem claim_C2_window_shift (stream : List ℤ) (b i : ℕ) (hb : 1 ≤ b)
    (hi : i + b < stream.length) :
    (SimpleTextDataset.getitem ⟨stream, b⟩ i).input = pySlice stream i (i + b) ∧
    (SimpleTextDataset.getitem ⟨stream, b⟩ i).target = pySlice stream (i + 1) (i + b + 1) ∧
    (SimpleTextDataset.getitem ⟨stream, b⟩ i).input.length = b ∧
    (SimpleTextDataset.getitem ⟨stream, b⟩ i).target.length = b ∧
    (∀ k, k + 1 < b →
      (SimpleTextDataset.getitem ⟨stream, b⟩ i).target[k]? =
        (SimpleTextDataset.getitem ⟨stream, b⟩ i).input[k + 1]?) ∧
    (SimpleTextDataset.getitem ⟨stream, b⟩ i).target[b - 1]? = stream[i + b]? := by
  have hinput : (SimpleTextDataset.getitem ⟨stream, b⟩ i).input = pySlice stream i (i + b) := rfl
  have htarget : (SimpleTextDataset.getitem ⟨stream, b⟩ i).target =
      pySlice stream (i + 1) (i + b + 1) := rfl
  refine ⟨hinput, htarget, ?_, ?_, ?_, ?_⟩
  · rw [hinput, pySlice_length]
    omega
  · rw [htarget, pySlice_length]
    omega
  · intro k hk
    rw [hinput, htarget, pySlice_getElem? stream (i + 1) (i + b + 1) k (by omega),
      pySlice_getElem? stream i (i + b) (k + 1) (by omega)]
    congr 1
    omega
  · rw [htarget, pySlice_getElem? stream (i + 1) (i + b + 1) (b - 1) (by omega)]
    congr 1
    omega

/-- Witness for **C2** on the stream `[10, 20, 30, 40]` with block size 2 at
index 1. -/
theorem claim_C2_window_shift_witness :
    1 ≤ 2 ∧ (1 + 2 < ([10, 20, 30, 40] : List ℤ).length) ∧
    (SimpleTextDataset.getitem ⟨[10, 20, 30, 40], 2⟩ 1).target[2 - 1]? =
      ([10, 20, 30, 40] : List ℤ)[1 + 2]? :=
  ⟨by decide, by decide,
   (claim_C2_window_shift [10, 20, 30, 40] 2 1 (by decide) (by decide)).2.2.2.2.2⟩

/-- **C10** fails as stated: on the stream `[0]` with block size 1 the index
`i = 0` lies in the claimed range `max(L-b,0) ≤ i < L`, yet the returned
input has length `1 = L - i`, which is *not* `< b = 1`. -/
theorem claim_C10_counterexample :
    (SimpleTextDataset.getitem ⟨[0], 1⟩ 0).input.length = 1 ∧
    ¬ ((SimpleTextDataset.getitem ⟨[0], 1⟩ 0).input.length < 1) := by
  decide

/-- **C10** (amended): for every index `i` with `max(L-b, 0) ≤ i < L`,
`__getitem__` raises no out-of-range error — slicing truncates silently — and
returns an input of length `L - i ≤ b` (strictly `< b` whenever
`i > max(L-b, 0)`; at `i = max(L-b, 0)` with `L ≥ b` the input still has full
length `b`) and a target of length `L - i - 1`, so the two tensors always have
unequal lengths. -/
theorem claim_C10_tail_truncation (stream : List ℤ) (b i : ℕ)
    (h1 : stream.length - b ≤ i) (h2 : i < stream.length) :
    (SimpleTextDataset.getitem ⟨stream, b⟩ i).input.length = stream.length - i ∧
    (SimpleTextDataset.getitem ⟨stream, b⟩ i).target.length = stream.length - i - 1 ∧
    stream.length - i ≤ b ∧
    (stream.length - b < i → stream.length - i < b) ∧
    (SimpleTextDataset.getitem ⟨stream, b⟩ i).input.length ≠
      (SimpleTextDataset.getitem ⟨stream, b⟩ i).target.length := by
  have hinput : (SimpleTextDataset.getitem ⟨stream, b⟩ i).input.length =
      min (i + b) stream.length - i := by
    show (pySlice stream i (i + b)).length = _
    rw [pySlice_length]
  have htarget : (SimpleTextDataset.getitem ⟨stream, b⟩ i).target.length =
      min (i + b + 1) stream.length - (i + 1) := by
    show (pySlice stream (i + 1) (i + b + 1)).length = _
    rw [pySlice_length]
  refine ⟨?_, ?_, by omega, by omega, ?_⟩
  · rw [hinput]; omega
  · rw [htarget]; omega
  · rw [hinput, htarget]; omega

/-- Witness for **C10** (amended) on the stream `[5, 6, 7]` with block size 2
at the truncating index 2. -/
theorem claim_C10_tail_truncation_witness :
    ([5, 6, 7] : List ℤ).length - 2 ≤ 2 ∧ 2 < ([5, 6, 7] : List ℤ).length ∧
    (SimpleTextDataset.getitem ⟨[5, 6, 7], 2⟩ 2).input.length =
      ([5, 6, 7] : List ℤ).length - 2 :=
  ⟨by decide, by decide,
   (claim_C10_tail_truncation [5, 6, 7] 2 2 (by decide) (by decide)).1⟩

/-- **C7**: if a file already exists at `tokenizer_file_path` the stored
tokenizer is loaded and returned unchanged — no training, no write to the
file system; otherwise a BPE tokenizer is trained on the corpus in batches of
`batch_size` and saved at the path.  Both branches return the wrapped
tokenizer together with its vocabulary size, and a second call with the same
path never retrains. -/
theorem claim_C7_tokenizer_cache (get_vocab_size : Tokenizer → ℕ) (fs : TokFS)
    (raw_dataset : List String) (path : String) (batch_size : ℕ)
    (config : TokenizersConfig) :
    (∀ t, fs.lookup path = some t →
        create_train_tokenizer get_vocab_size fs raw_dataset path batch_size config =
          ⟨⟨t⟩, get_vocab_size t, fs, false⟩) ∧
    (fs.lookup path = none →
        create_train_tokenizer get_vocab_size fs raw_dataset path batch_size config =
          ⟨⟨bpe_trained_tokenizer raw_dataset batch_size config⟩,
            get_vocab_size (bpe_trained_tokenizer raw_dataset batch_size config),
            (path, bpe_trained_tokenizer raw_dataset batch_size config) :: fs, true⟩) ∧
    (∀ (ds' : List String) (bs' : ℕ) (cfg' : TokenizersConfig),
        (create_train_tokenizer get_vocab_size
            (create_train_tokenizer get_vocab_size fs raw_dataset path batch_size config).fs
            ds' path bs' cfg').trained = false) := by
  refine ⟨?_, ?_, ?_⟩
  · intro t ht
    simp [create_train_tokenizer, ht]
  · intro h
    simp [create_train_tokenizer, h]
  · intro ds' bs' cfg'
    cases h : fs.lookup path with
    | none => simp [create_train_tokenizer, h, List.lookup]
    | some t => simp [create_train_tokenizer, h]

/-- Witness for **C7**: a first call on an empty file system trains and saves;
the theorem's cache-miss branch applies. -/
theorem claim_C7_tokenizer_cache_witness :
    (([] : TokFS).lookup "tok.json" = none) ∧
    create_train_tokenizer (fun t => t.special_tokens.length) [] ["a b", "c"]
        "tok.json" 1 ⟨["[PAD]"]⟩ =
      ⟨⟨bpe_trained_tokenizer ["a b", "c"] 1 ⟨["[PAD]"]⟩⟩,
        (fun t : Tokenizer => t.special_tokens.length)
          (bpe_trained_tokenizer ["a b", "c"] 1 ⟨["[PAD]"]⟩),
        [("tok.json", bpe_trained_tokenizer ["a b", "c"] 1 ⟨["[PAD]"]⟩)], true⟩ :=
  ⟨rfl,
   (claim_C7_tokenizer_cache (fun t => t.special_tokens.length) [] ["a b", "c"]
      "tok.json" 1 ⟨["[PAD]"]⟩).2.1 rfl⟩

/-- **C8** fails as stated when the token-stream cache file
`{path}-{split}-tokenized.pt` exists: the stream is then loaded verbatim from
the cache (here `[7, 8]`) instead of being built by tokenizing the filtered
records (which would give `[1]`). -/
theorem claim_C8_counterexample :
    SimpleTextDataset.build_data (some [7, 8]) (fun _ => [1]) [⟨"a"⟩] ≠
      ((filter_empty [⟨"a"⟩]).map fun x => (fun _ : String => [(1 : ℤ)]) x.text).flatten := by
  decide

/-- **C8** (amended): when no token-stream cache file exists, construction
filters out every empty-text record, tokenizes the remaining records and
concatenates their token-id sequences in record order, so empty-text records
contribute nothing to the stream — inserting an empty record anywhere leaves
the stream unchanged.  When the cache file exists, the stream is loaded from
it verbatim, with no filtering or tokenization. -/
theorem claim_C8_stream_filtered (encode : String → List ℤ) (rows : List Row) :
    SimpleTextDataset.build_data none encode rows =
      ((rows.filter fun x => 0 < x.text.length).map fun x => encode x.text).flatten ∧
    (∀ cached, SimpleTextDataset.build_data (some cached) encode rows = cached) ∧
    (∀ pre post : List Row,
      SimpleTextDataset.build_data none encode (pre ++ ⟨""⟩ :: post) =
        SimpleTextDataset.build_data none encode (pre ++ post)) := by
  refine ⟨rfl, fun cached => rfl, ?_⟩
  intro pre post
  simp [SimpleTextDataset.build_data, filter_empty, List.filter_append]

/-! ## Shape of the Noam schedule (claim C5) -/

theorem rpow_neg_half_eq {x : ℝ} (hx : 0 ≤ x) : x ^ (-0.5 : ℝ) = (Real.sqrt x)⁻¹ := by
  rw [show ((-0.5 : ℝ)) = -(1 / 2 : ℝ) by norm_num, Real.rpow_neg hx, ← Real.sqrt_eq_rpow]

theorem rpow_neg_three_half_eq {x : ℝ} (hx : 0 ≤ x) :
    x ^ (-1.5 : ℝ) = (x * Real.sqrt x)⁻¹ := by
  rcases eq_or_lt_of_le hx with h | h
  · rw [← h, Real.zero_rpow (by norm_num), Real.sqrt_zero, mul_zero, inv_zero]
  · have h32 : x ^ ((1.5 : ℝ)) = x * Real.sqrt x := by
      rw [show (1.5 : ℝ) = 1 + 1 / 2 by norm_num, Real.rpow_add h, Real.rpow_one,
        ← Real.sqrt_eq_rpow]
    rw [show ((-1.5 : ℝ)) = -(1.5 : ℝ) by norm_num, Real.rpow_neg hx, h32]

/-- The rate formula, rewritten with square roots: `noam_lr d w t =
(√d)⁻¹ * min (√t)⁻¹ (t * (w * √w)⁻¹)`. -/
theorem noam_lr_eq (d w t : ℕ) :
    noam_lr d w t =
      (Real.sqrt d)⁻¹ *
        min (Real.sqrt t)⁻¹ ((t : ℝ) * ((w : ℝ) * Real.sqrt w)⁻¹) := by
  unfold noam_lr
  rw [rpow_neg_half_eq (Nat.cast_nonneg d), rpow_neg_half_eq (Nat.cast_nonneg t),
    rpow_neg_three_half_eq (Nat.cast_nonneg w)]

/-- On the warmup side (`1 ≤ t ≤ w`) the linear-ramp term is the smaller of
the two arguments of `min`. -/
theorem ramp_le_decay {w t : ℕ} (ht : 1 ≤ t) (htw : t ≤ w) :
    (t : ℝ) * ((w : ℝ) * Real.sqrt w)⁻¹ ≤ (Real.sqrt t)⁻¹ := by
  have ht0 : (0 : ℝ) < t := by exact_mod_cast ht
  have htw' : (t : ℝ) ≤ w := by exact_mod_cast htw
  have hw0 : (0 : ℝ) < w := lt_of_lt_of_le ht0 htw'
  have hst : 0 < Real.sqrt t := Real.sqrt_pos.mpr ht0
  have hsw : 0 < Real.sqrt w := Real.sqrt_pos.mpr hw0
  rw [← div_eq_mul_inv, ← one_div, div_le_div_iff₀ (mul_pos hw0 hsw) hst, one_mul]
  exact mul_le_mul htw' (Real.sqrt_le_sqrt htw') (Real.sqrt_nonneg _) hw0.le

/-- On the decay side (`1 ≤ w ≤ t`) the inverse-square-root term is the
smaller of the two arguments of `min`. -/
theorem decay_le_ramp {w t : ℕ} (hw : 1 ≤ w) (hwt : w ≤ t) :
    (Real.sqrt t)⁻¹ ≤ (t : ℝ) * ((w : ℝ) * Real.sqrt w)⁻¹ := by
  have hw0 : (0 : ℝ) < w := by exact_mod_cast hw
  have hwt' : (w : ℝ) ≤ t := by exact_mod_cast hwt
  have ht0 : (0 : ℝ) < t := lt_of_lt_of_le hw0 hwt'
  have hst : 0 < Real.sqrt t := Real.sqrt_pos.mpr ht0
  have hsw : 0 < Real.sqrt w := Real.sqrt_pos.mpr hw0
  rw [← div_eq_mul_inv, ← one_div, div_le_div_iff₀ hst (mul_pos hw0 hsw), one_mul]
  exact mul_le_mul hwt' (Real.sqrt_le_sqrt hwt') (Real.sqrt_nonneg _) ht0.le

/-- For `1 ≤ t ≤ w` the schedule is the linear ramp. -/
theorem noam_lr_of_le_warmup {d w t : ℕ} (ht : 1 ≤ t) (htw : t ≤ w) :
    noam_lr d w t = (Real.sqrt d)⁻¹ * ((t : ℝ) * ((w : ℝ) * Real.sqrt w)⁻¹) := by
  rw [noam_lr_eq, min_eq_right (ramp_le_decay ht htw)]

/-- For `w ≤ t` (with `w ≥ 1`) the schedule is the inverse-square-root
decay. -/
theorem noam_lr_of_warmup_le {d w t : ℕ} (hw : 1 ≤ w) (hwt : w ≤ t) :
    noam_lr d w t = (Real.sqrt d)⁻¹ * (Real.sqrt t)⁻¹ := by
  rw [noam_lr_eq, min_eq_left (decay_le_ramp hw hwt)]

/-- **C5**: for fixed `d > 0` and `w ≥ 1`, the rate computed by `NoamOpt._lr`
is strictly increasing on `1 ≤ t < w`, strictly decreasing for `t > w`,
attains its maximum over the whole trajectory at `t = w`, and is strictly
positive for every `t ≥ 1`. -/
theorem claim_C5_lr_schedule_shape (d w : ℕ) (hd : 0 < d) (hw : 1 ≤ w) :
    (∀ s t : ℕ, 1 ≤ s → s < t → t ≤ w → noam_lr d w s < noam_lr d w t) ∧
    (∀ s t : ℕ, w ≤ s → s < t → noam_lr d w t < noam_lr d w s) ∧
    (∀ t : ℕ, 1 ≤ t → noam_lr d w t ≤ noam_lr d w w) ∧
    (∀ t : ℕ, 1 ≤ t → 0 < noam_lr d w t) := by
  have hd0 : (0 : ℝ) < d := by exact_mod_cast hd
  have hw0 : (0 : ℝ) < w := by exact_mod_cast hw
  have hA : 0 < (Real.sqrt d)⁻¹ := inv_pos.mpr (Real.sqrt_pos.mpr hd0)
  have hWW : 0 < (w : ℝ) * Real.sqrt w := mul_pos hw0 (Real.sqrt_pos.mpr hw0)
  refine ⟨?_, ?_, ?_, ?_⟩
  · intro s t hs hst htw
    rw [noam_lr_of_le_warmup hs (le_of_lt (lt_of_lt_of_le hst htw)),
      noam_lr_of_le_warmup (le_trans hs (le_of_lt hst)) htw]
    have hst' : (s : ℝ) < t := by exact_mod_cast hst
    exact mul_lt_mul_of_pos_left
      (mul_lt_mul_of_pos_right hst' (inv_pos.mpr hWW)) hA
  · intro s t hws hst
    have hwt : w ≤ t := le_trans hws (le_of_lt hst)
    rw [noam_lr_of_warmup_le hw hws, noam_lr_of_warmup_le hw hwt]
    have hs0 : (0 : ℝ) < s := lt_of_lt_of_le hw0 (by exact_mod_cast hws)
    have hst' : (s : ℝ) < t := by exact_mod_cast hst
    exact mul_lt_mul_of_pos_left
      (inv_strictAnti₀ (Real.sqrt_pos.mpr hs0) (Real.sqrt_lt_sqrt hs0.le hst')) hA
  · intro t ht
    rcases le_total t w with htw | hwt
    · rw [noam_lr_of_le_warmup ht htw, noam_lr_of_le_warmup hw le_rfl]
      have htw' : (t : ℝ) ≤ w := by exact_mod_cast htw
      exact mul_le_mul_of_nonneg_left
        (mul_le_mul_of_nonneg_right htw' (inv_pos.mpr hWW).le) hA.le
    · rw [noam_lr_of_warmup_le hw hwt, noam_lr_of_warmup_le hw le_rfl]
      have hwt' : (w : ℝ) ≤ t := by exact_mod_cast hwt
      exact mul_le_mul_of_nonneg_left
        (inv_anti₀ (Real.sqrt_pos.mpr hw0) (Real.sqrt_le_sqrt hwt')) hA.le
  · intro t ht
    have ht0 : (0 : ℝ) < t := by exact_mod_cast ht
    rw [noam_lr_eq]
    exact mul_pos hA (lt_min (inv_pos.mpr (Real.sqrt_pos.mpr ht0))
      (mul_pos ht0 (inv_pos.mpr hWW)))

/-- Witness for **C5** at the source defaults `d = 512`, `w = 4000`. -/
theorem claim_C5_lr_schedule_shape_witness :
    0 < 512 ∧ 1 ≤ 4000 ∧
    (∀ t : ℕ, 1 ≤ t → noam_lr 512 4000 t ≤ noam_lr 512 4000 4000) ∧
    (∀ t : ℕ, 1 ≤ t → 0 < noam_lr 512 4000 t) :=
  ⟨by decide, by decide,
   (claim_C5_lr_schedule_shape 512 4000 (by decide) (by decide)).2.2.1,
   (claim_C5_lr_schedule_shape 512 4000 (by decide) (by decide)).2.2.2⟩

end GPTUtils
